import Mathlib

/-!
Verification of the `unc` dev-mode process supervisor.

This file is a shallow embedding of `src/commands/dev.rs` (the `dev`
command: `ProcessGuard`, `kill_process`, the poll loop) and of
`src/utils/tailwind.rs` (`read_tailwind_config`, `is_tailwind_enabled`),
together with the exit-code mapping of `src/main.rs` (`main` exits with
code 1 when `run()` returns `Err`, and 0 otherwise).

The `dev` function performs I/O through external collaborators (process
spawning, `try_wait`, the ctrl-c crate, the filesystem).  Those
collaborators are modelled by an environment record `Env` whose fields
give the result of each external call, in program order; the repeated reads of the
cancellation flag and of `try_wait` in the poll loop are given by a
stream `Env.obs : Nat → Obs`.  The embedded `dev` is then a deterministic
function of the environment and of a fuel bound on the number of loop
iterations, returning the session outcome together with the ordered trace
of observable events (spawns, terminate calls, warnings).  Real-time
details (the 500 ms post-spawn sleep, the 100 ms poll sleep) have no
observable effect beyond sequencing and are not modelled.
-/

namespace Unc

/-- Role of a supervised watcher process.  The primary watcher is the
`cargo watch -x run` child (mandatory); the secondary watcher is the
optional `npx tailwindcss` child. -/
inductive Role where
  | primary
  | secondary

deriving instance DecidableEq, Repr for Role

/-- A spawned child process handle (`std::process::Child` in the source).
The handle itself only identifies the role whose OS process it refers to;
exit statuses are observed through the environment (`try_wait` results in
`Obs`, `wait` results in `Env.waitStatus`), as in the source where
`Child` stores no exit status. -/
structure Child where
  role : Role

deriving instance DecidableEq, Repr for Child

/-- Observable events of one `dev()` session, in program order:
* `installAttempt` — `dev.rs:86-87`: cargo-watch missing, install attempted;
* `warnNpx` — `dev.rs:95-99`: the yellow "tailwind enabled but npx not
  found" warning (the only warning `dev()` ever prints);
* `spawn r` — a successful spawn of the watcher with role `r`
  (`dev.rs:109` for the secondary, `dev.rs:125-132` for the primary);
* `handlerInstalled` — `dev.rs:138-140`: `ctrlc::set_handler` succeeded;
* `kill r` — a terminate(+wait) call issued to the handle of role `r`,
  either by `kill_process` (`dev.rs:71-75`) or by the `Drop` impl of `ProcessGuard`
  (`dev.rs:34-42`). -/
inductive Event where
  | installAttempt
  | warnNpx
  | spawn (r : Role)
  | handlerInstalled
  | kill (r : Role)

deriving instance DecidableEq, Repr for Event

/-- Struct `ProcessGuard` (`dev.rs:15-32`): RAII wrapper around an optionally
held child.  `name` is the dead-code label field. -/
structure ProcessGuard where
  child : Option Child
  name : String

deriving instance DecidableEq, Repr for ProcessGuard

/-- Constructor `ProcessGuard::new` (`dev.rs:22-27`). -/
def ProcessGuard.new (c : Child) (name : String) : ProcessGuard :=
  { child := some c, name := name }

/-- Method `ProcessGuard::take` (`dev.rs:29-31`): `self.child.take()` — returns
the held child (if any) and leaves the guard empty.  Rust mutates the
guard in place; here the updated guard is returned alongside. -/
def ProcessGuard.take (g : ProcessGuard) : Option Child × ProcessGuard :=
  (g.child, { g with child := none })

/-- The `Drop` impl of `ProcessGuard` (`dev.rs:34-42`): if a child is
still held, issue `kill()` then `wait()` (both results discarded) —
modelled as the list of terminate events the drop emits. -/
def ProcessGuard.dropEvents (g : ProcessGuard) : List Event :=
  match g.child with
  | some c => [Event.kill c.role]
  | none => []

/-- Function `kill_process` (`dev.rs:71-75`): `child.kill()` then `child.wait()`,
both results discarded (`let _ = ...`).  `waitS` is the OS-level status
`wait()` would return; it is discarded exactly as in the source. -/
def kill_process (c : Child) (waitS : Nat) : List Event :=
  [Event.kill c.role]

/-- Result of one `try_wait()` call on the primary child
(`dev.rs:167`): `Ok(Some(status))`, `Ok(None)`, or `Err(e)`. -/
inductive PollRes where
  | exited (status : Nat)
  | stillRunning
  | pollErr

deriving instance DecidableEq, Repr for PollRes

/-- What one iteration of the poll loop observes: first the
`running.load(..)` value of the cancellation flag (`dev.rs:148`), then —
if the flag is still true — the `try_wait` result (`dev.rs:167`). -/
structure Obs where
  runningFlag : Bool
  poll : PollRes

deriving instance DecidableEq, Repr for Obs

/-- Environment of one `dev()` session: the results of every external
call, in program order.  `exited` statuses use `Nat` exit codes with
`status.success() ↔ status = 0`. -/
structure Env where
  /-- `is_cargo_watch_installed()` at `dev.rs:85`. -/
  cargoWatchInstalled : Bool
  /-- the re-check inside `ensure_cargo_watch` (`cargo.rs:44`). -/
  cargoWatchInstalled2 : Bool
  /-- `install_cargo_watch()` success (`cargo.rs:45`). -/
  installOk : Bool
  /-- `is_tailwind_enabled()` at `dev.rs:91`. -/
  tailwindEnabled : Bool
  /-- first `is_npx_available()` call (`dev.rs:94`). -/
  npxAvail1 : Bool
  /-- second `is_npx_available()` call (`dev.rs:105`). -/
  npxAvail2 : Bool
  /-- `spawn_tailwind_process()` success (`dev.rs:106`). -/
  tailwindSpawnOk : Bool
  /-- `Command::new("cargo").spawn()` success (`dev.rs:125-130`). -/
  cargoSpawnOk : Bool
  /-- `ctrlc::set_handler` success (`dev.rs:138-140`). -/
  ctrlcOk : Bool
  /-- OS exit status a `wait()` on the process of the given role would
  return; only ever produced by calls whose result the source
  discards. -/
  waitStatus : Role → Nat
  /-- per-iteration observations of the poll loop. -/
  obs : Nat → Obs

/-- Causes of a fatal (`Err`) return from `dev()`:
* `installFailed` — `bail!("Failed to install cargo-watch")`
  (`cargo.rs:52`), propagated by the `?` at `dev.rs:87`;
* `spawnErr` — the io error from `Command::spawn`, propagated by the `?`
  at `dev.rs:130`;
* `ctrlcErr` — the ctrlc error, propagated by the `?` at `dev.rs:140`;
* `pollIoErr` — the io error from `try_wait`, returned at `dev.rs:175`;
* `cargoWatchExited` — `bail!("cargo watch exited with an error")`
  (`dev.rs:189`); note this message carries no exit code;
* `cargoWatchLost` — `bail!("cargo-watch process was lost")`
  (`dev.rs:179`). -/
inductive DevErr where
  | installFailed
  | spawnErr
  | ctrlcErr
  | pollIoErr
  | cargoWatchExited
  | cargoWatchLost

deriving instance DecidableEq, Repr for DevErr

/-- Session outcome of the embedded `dev()`:
* `ok` — `dev` returned `Ok(())`;
* `fatal e` — `dev` returned `Err(..)` with cause `e`;
* `diverged` — the poll loop had not terminated within the fuel bound
  (the real loop simply keeps polling; no return, no cleanup yet). -/
inductive Outcome where
  | ok
  | fatal (e : DevErr)
  | diverged

deriving instance DecidableEq, Repr for Outcome

/-- Result of one embedded `dev()` session: the outcome together with
the ordered trace of observable events. -/
structure DevResult where
  outcome : Outcome
  events : List Event

deriving instance DecidableEq, Repr for DevResult

/-- Model of `tailwind_guard.as_mut().and_then(|g| g.take())` (`dev.rs:157,184`):
take the child out of an optional guard, leaving the guard (if present)
empty. -/
def optTake : Option ProcessGuard → Option Child × Option ProcessGuard
  | none => (none, none)
  | some g => ((g.take).1, some (g.take).2)

/-- Drop of an `Option<ProcessGuard>` binding: the drop of the inner
guard runs if present. -/
def optDropEvents : Option ProcessGuard → List Event
  | none => []
  | some g => g.dropEvents

/-- The poll loop of `dev()` (`dev.rs:146-192`) plus the post-loop code
it breaks into, with explicit fuel bounding the number of iterations.
Arguments: fuel, current iteration index `t`, the cargo guard
(`cargo_guard`, declared `dev.rs:132`), the optional tailwind guard
(`tailwind_guard`, declared `dev.rs:105`), and the event trace so far.

Each iteration:
* `dev.rs:148-162` — if `running.load` is false: take and kill the
  primary, then take and kill the secondary, `return Ok(())` (at which
  point both guards drop empty);
* `dev.rs:166-180` — else, if the cargo guard still holds its child,
  `try_wait` it: `Ok(Some(status))` breaks out of the loop,
  `Ok(None)` sleeps and repeats, `Err(e)` returns `Err` (guards drop:
  `cargo_guard` first — reverse declaration order — then
  `tailwind_guard`); if the guard is empty,
  `bail!("cargo-watch process was lost")` with the same drops;
* `dev.rs:183-192` — after the break: take and kill the secondary, then
  return `Ok(())` on `status.success()` and
  `bail!("cargo watch exited with an error")` otherwise; on both
  returns the still-full `cargo_guard` drops (killing the primary) and
  the emptied `tailwind_guard` drops (a no-op). -/
def devLoop (env : Env) : Nat → Nat → ProcessGuard → Option ProcessGuard → List Event → DevResult
  | 0, _, _, _, ev => ⟨Outcome.diverged, ev⟩
  | fuel + 1, t, cargoGuard, twGuard, ev =>
    if (env.obs t).runningFlag = false then
      let tk := cargoGuard.take
      let ev1 := ev ++ (match tk.1 with
        | some c => kill_process c (env.waitStatus c.role)
        | none => [])
      let tw := optTake twGuard
      let ev2 := ev1 ++ (match tw.1 with
        | some c => kill_process c (env.waitStatus c.role)
        | none => [])
      ⟨Outcome.ok, ev2 ++ (tk.2).dropEvents ++ optDropEvents tw.2⟩
    else
      match cargoGuard.child with
      | some _ =>
        match (env.obs t).poll with
        | PollRes.exited status =>
          let tw := optTake twGuard
          let evk := match tw.1 with
            | some c => kill_process c (env.waitStatus c.role)
            | none => []
          if status = 0 then
            ⟨Outcome.ok, ev ++ evk ++ cargoGuard.dropEvents ++ optDropEvents tw.2⟩
          else
            ⟨Outcome.fatal DevErr.cargoWatchExited,
              ev ++ evk ++ cargoGuard.dropEvents ++ optDropEvents tw.2⟩
        | PollRes.stillRunning => devLoop env fuel (t + 1) cargoGuard twGuard ev
        | PollRes.pollErr =>
          ⟨Outcome.fatal DevErr.pollIoErr,
            ev ++ cargoGuard.dropEvents ++ optDropEvents twGuard⟩
      | none =>
        ⟨Outcome.fatal DevErr.cargoWatchLost,
          ev ++ cargoGuard.dropEvents ++ optDropEvents twGuard⟩

/-- Body of `dev()` after the cargo-watch availability check (`dev.rs:91-192`):
the npx warning, the optional secondary spawn (its failure handled by
`Err(_) => None`, with no output), the mandatory primary spawn (failure
propagated by `?`, dropping the tailwind guard), the ctrl-c handler
installation (failure propagated by `?`, dropping `cargo_guard` then
`tailwind_guard`, in reverse declaration order), then the poll loop. -/
def devBody (env : Env) (fuel : Nat) (ev0 : List Event) : DevResult :=
  let ev1 := ev0 ++ (if env.tailwindEnabled && !env.npxAvail1 then [Event.warnNpx] else [])
  let twSpawned := env.tailwindEnabled && env.npxAvail2 && env.tailwindSpawnOk
  let twGuard : Option ProcessGuard :=
    if twSpawned then some (ProcessGuard.new ⟨Role.secondary⟩ "Tailwind CSS") else none
  let ev2 := ev1 ++ (if twSpawned then [Event.spawn Role.secondary] else [])
  if env.cargoSpawnOk = false then
    ⟨Outcome.fatal DevErr.spawnErr, ev2 ++ optDropEvents twGuard⟩
  else
    let cargoGuard := ProcessGuard.new ⟨Role.primary⟩ "cargo-watch"
    let ev3 := ev2 ++ [Event.spawn Role.primary]
    if env.ctrlcOk = false then
      ⟨Outcome.fatal DevErr.ctrlcErr, ev3 ++ cargoGuard.dropEvents ++ optDropEvents twGuard⟩
    else
      devLoop env fuel 0 cargoGuard twGuard (ev3 ++ [Event.handlerInstalled])

/-- The `dev()` command (`dev.rs:83-193`).  Lines 85-88: if cargo-watch
is not installed, `ensure_cargo_watch()` re-checks and installs
(`cargo.rs:41-47`); its failure is fatal via `?`.  Then `devBody`. -/
def dev (env : Env) (fuel : Nat) : DevResult :=
  if env.cargoWatchInstalled then
    devBody env fuel []
  else if env.cargoWatchInstalled2 || env.installOk then
    devBody env fuel [Event.installAttempt]
  else
    ⟨Outcome.fatal DevErr.installFailed, [Event.installAttempt]⟩

/-- Exit-code mapping of `main` (`main.rs:43-48`): `Err` prints the
error and exits 1; `Ok` falls off `main` with exit code 0.  A diverged
session has not exited. -/
def exitCode : Outcome → Option Nat
  | Outcome.ok => some 0
  | Outcome.fatal _ => some 1
  | Outcome.diverged => none

/-- The sequence of terminate calls in a trace, in order. -/
def killsOf (evs : List Event) : List Role :=
  evs.filterMap (fun e => match e with | Event.kill r => some r | _ => none)

/-! ## The cancellation flag (`dev.rs:135-140`)

`running` is an `Arc<AtomicBool>` initialised to `true`; the ctrl-c
entire body of the handler is `r.store(false, Ordering::SeqCst)`; no other
code in the repository writes to it.  The value of the flag over time is
therefore a pure function of the signal-arrival history: it is the
initial value `true` folded through one `handlerBody` application per
delivered signal. -/

/-- The initial value of `running`: `AtomicBool::new(true)`
(`dev.rs:135`). -/
def flagInitial : Bool := true

/-- The entire body of the ctrl-c handler (`dev.rs:138-140`): one store
of `false`, regardless of the current value. -/
def handlerBody (current : Bool) : Bool := false

/-- The value of `running` after a given finite signal history (`true`
at each position where a signal was delivered). -/
def flagAfter (signals : List Bool) : Bool :=
  signals.foldl (fun f s => if s then handlerBody f else f) flagInitial

/-- The value of `running` observed at time `t`, given the signal
arrivals up to and including `t`. -/
def flagAt (signals : Nat → Bool) (t : Nat) : Bool :=
  flagAfter ((List.range (t + 1)).map signals)

/-! ## The secondary-watcher config probe (`utils/tailwind.rs`)

`read_tailwind_config` reads `Cargo.toml` and extracts
`package.metadata.tailwind`.  The filesystem and the external TOML
parser are modelled by a probe value giving the result of each external
step: the file may be missing (`!path.exists()`), unreadable
(`fs::read_to_string` fails), unparseable (`toml::from_str` fails), or
parsed into a `CargoToml` value. -/

/-- Struct `TailwindConfig` (`tailwind.rs:6-20`). -/
structure TailwindConfig where
  input : List String
  output : String
  watch_enabled : Bool
  watch_always : Bool
  optimize_minify : Bool
  optimize_map : Bool

deriving instance DecidableEq, Repr for TailwindConfig

/-- Struct `Metadata` (`tailwind.rs:32-35`). -/
structure Metadata where
  tailwind : Option TailwindConfig

deriving instance DecidableEq, Repr for Metadata

/-- Struct `Package` (`tailwind.rs:27-30`). -/
structure Package where
  metadata : Option Metadata

deriving instance DecidableEq, Repr for Package

/-- Struct `CargoToml` (`tailwind.rs:22-25`). -/
structure CargoToml where
  package : Option Package

deriving instance DecidableEq, Repr for CargoToml

/-- Result of the external filesystem/parser steps that
`read_tailwind_config` performs on `Cargo.toml`. -/
inductive CargoTomlProbe where
  | missing
  | readErr
  | parseErr
  | parsed (c : CargoToml)

deriving instance DecidableEq, Repr for CargoTomlProbe

/-- Function `read_tailwind_config` (`tailwind.rs:46-61`): `Ok(None)` when the
file does not exist; `Err` (with context message) when reading or
parsing fails; otherwise the `package.and_then(metadata).and_then(tailwind)`
chain. -/
def read_tailwind_config : CargoTomlProbe → Except String (Option TailwindConfig)
  | CargoTomlProbe.missing => Except.ok none
  | CargoTomlProbe.readErr => Except.error "Failed to read Cargo.toml"
  | CargoTomlProbe.parseErr => Except.error "Failed to parse Cargo.toml"
  | CargoTomlProbe.parsed c =>
    Except.ok ((c.package.bind Package.metadata).bind Metadata.tailwind)

/-- Function `is_tailwind_enabled` (`tailwind.rs:68-74`):
`read_tailwind_config("Cargo.toml").ok().flatten().map(|c| c.watch_enabled).unwrap_or(false)`. -/
def is_tailwind_enabled (probe : CargoTomlProbe) : Bool :=
  ((((read_tailwind_config probe).toOption).join).map TailwindConfig.watch_enabled).getD false

/-! ## Derived notions and general lemmas -/

/-- Whether the session spawned a secondary watcher: tailwind enabled,
npx available at the second probe, and the spawn succeeded
(`dev.rs:105-115`). -/
def twSpawned (env : Env) : Bool :=
  env.tailwindEnabled && env.npxAvail2 && env.tailwindSpawnOk

/-- The tailwind guard as it stands after `dev.rs:105-115`. -/
def twGuard0 (env : Env) : Option ProcessGuard :=
  if twSpawned env then some (ProcessGuard.new ⟨Role.secondary⟩ "Tailwind CSS") else none

/-- The event trace accumulated by the time the poll loop is entered
(`dev.rs:83-143`), for a session whose setup succeeded. -/
def setupEvents (env : Env) : List Event :=
  (if env.cargoWatchInstalled then [] else [Event.installAttempt])
    ++ (if env.tailwindEnabled && !env.npxAvail1 then [Event.warnNpx] else [])
    ++ (if twSpawned env then [Event.spawn Role.secondary] else [])
    ++ [Event.spawn Role.primary, Event.handlerInstalled]

/-- Number of terminate calls to role `r` recorded in a trace. -/
def killCount (r : Role) (evs : List Event) : Nat :=
  (killsOf evs).countP (fun x => decide (x = r))

/-- Terminate calls a still-held child contributes when released. -/
def childCount (r : Role) : Option Child → Nat
  | some c => if c.role = r then 1 else 0
  | none => 0

/-- Terminate calls an optional guard can still contribute. -/
def optChildCount (r : Role) : Option ProcessGuard → Nat
  | none => 0
  | some g => childCount r g.child

/-- The events accumulated before the primary spawn (`dev.rs:83-115`). -/
def preSpawnEvents (env : Env) : List Event :=
  (if env.cargoWatchInstalled then [] else [Event.installAttempt])
    ++ (if env.tailwindEnabled && !env.npxAvail1 then [Event.warnNpx] else [])
    ++ (if twSpawned env then [Event.spawn Role.secondary] else [])

/-! ## Concrete environments used as test vectors -/

/-- The quiet observation stream: flag up, primary still running. -/
def baseObs : Nat → Obs := fun _ => ⟨true, PollRes.stillRunning⟩

/-- Baseline happy-path environment: cargo-watch installed, tailwind
disabled, every external call succeeds, nothing ever happens in the
loop. -/
def envBase : Env :=
  { cargoWatchInstalled := true, cargoWatchInstalled2 := true, installOk := true,
    tailwindEnabled := false, npxAvail1 := true, npxAvail2 := true,
    tailwindSpawnOk := true, cargoSpawnOk := true, ctrlcOk := true,
    waitStatus := fun _ => 0, obs := baseObs }

/-- Both watchers running, ctrl-c observed at the first poll. -/
def envCancelBoth : Env :=
  { envBase with tailwindEnabled := true,
                 obs := fun _ => ⟨false, PollRes.stillRunning⟩ }

/-- Secondary spawned, then the primary spawn fails. -/
def envSpawnFail : Env :=
  { envBase with tailwindEnabled := true, cargoSpawnOk := false }

/-- Both watchers spawned, then installing the ctrl-c handler fails. -/
def envCtrlcFail : Env :=
  { envBase with tailwindEnabled := true, ctrlcOk := false }

/-- Both watchers running; the primary exits with status 137 at the
first poll. -/
def envExit137 : Env :=
  { envBase with tailwindEnabled := true,
                 obs := fun _ => ⟨true, PollRes.exited 137⟩ }

/-- Both watchers running; the primary exits with status 5 at the first
poll. -/
def envExit5 : Env :=
  { envBase with tailwindEnabled := true,
                 obs := fun _ => ⟨true, PollRes.exited 5⟩ }

/-- Tailwind enabled, npx available, but the secondary spawn fails; the
primary then exits cleanly at the first poll. -/
def envTwSpawnFail : Env :=
  { envBase with tailwindEnabled := true, tailwindSpawnOk := false,
                 obs := fun _ => ⟨true, PollRes.exited 0⟩ }

/-- Both watchers running, cancellation at the first poll, secondary
process would report exit status 0 on `wait`. -/
def envCancelSec0 : Env :=
  { envBase with tailwindEnabled := true,
                 obs := fun _ => ⟨false, PollRes.stillRunning⟩,
                 waitStatus := fun _ => 0 }

/-- As `envCancelSec0`, but the secondary process would report exit
status 9 on `wait`. -/
def envCancelSec9 : Env :=
  { envBase with tailwindEnabled := true,
                 obs := fun _ => ⟨false, PollRes.stillRunning⟩,
                 waitStatus := fun r => match r with
                   | Role.primary => 0
                   | Role.secondary => 9 }

/-- A signal history with a single ctrl-c, delivered at time 1. -/
def sigAt1 : Nat → Bool := fun n => n == 1

lemma killsOf_append (a b : List Event) : killsOf (a ++ b) = killsOf a ++ killsOf b :=
  List.filterMap_append a b _

lemma killsOf_setupEvents (env : Env) : killsOf (setupEvents env) = [] := by
  unfold setupEvents
  split <;> split <;> split <;> rfl

/-- A session whose setup phase fully succeeds enters the poll loop with
a full cargo guard, the tailwind guard `twGuard0`, and trace
`setupEvents`. -/
lemma dev_reach_loop (env : Env) (fuel : Nat)
    (h1 : env.cargoWatchInstalled = true ∨ env.cargoWatchInstalled2 = true ∨ env.installOk = true)
    (h2 : env.cargoSpawnOk = true) (h3 : env.ctrlcOk = true) :
    dev env fuel =
      devLoop env fuel 0 (ProcessGuard.new ⟨Role.primary⟩ "cargo-watch") (twGuard0 env)
        (setupEvents env) := by
  by_cases hc : env.cargoWatchInstalled = true
  · simp [dev, devBody, setupEvents, twGuard0, twSpawned, hc, h2, h3, List.append_assoc]
  · have hcf : env.cargoWatchInstalled = false := by
      cases hcb : env.cargoWatchInstalled
      · rfl
      · exact absurd hcb hc
    have hc2 : (env.cargoWatchInstalled2 || env.installOk) = true := by
      rcases h1 with h | h | h
      · exact absurd h hc
      · simp [h]
      · simp [h]
    simp [dev, devBody, setupEvents, twGuard0, twSpawned, hcf, hc2, h2, h3, List.append_assoc]

/-- While the flag reads `true` and `try_wait` reports the primary still
running, the loop just advances to the next iteration. -/
lemma devLoop_step (env : Env) (fuel t : Nat) (cg : ProcessGuard) (tw : Option ProcessGuard)
    (ev : List Event) (c : Child) (hc : cg.child = some c)
    (h : env.obs t = ⟨true, PollRes.stillRunning⟩) :
    devLoop env (fuel + 1) t cg tw ev = devLoop env fuel (t + 1) cg tw ev := by
  simp [devLoop, h, hc]

/-- Skipping a block of quiet iterations. -/
lemma devLoop_skip (env : Env) (k : Nat) :
    ∀ (t fuel : Nat) (cg : ProcessGuard) (tw : Option ProcessGuard) (ev : List Event)
      (c : Child), cg.child = some c →
      (∀ s, s < k → env.obs (t + s) = ⟨true, PollRes.stillRunning⟩) →
      devLoop env (fuel + k) t cg tw ev = devLoop env fuel (t + k) cg tw ev := by
  induction k with
  | zero => intro t fuel cg tw ev c _ _; rfl
  | succ n ih =>
    intro t fuel cg tw ev c hc h
    have h0 : env.obs t = ⟨true, PollRes.stillRunning⟩ := by
      simpa using h 0 (Nat.succ_pos n)
    have step : devLoop env ((fuel + n) + 1) t cg tw ev = devLoop env (fuel + n) (t + 1) cg tw ev :=
      devLoop_step env (fuel + n) t cg tw ev c hc h0
    have hrest : ∀ s, s < n → env.obs ((t + 1) + s) = ⟨true, PollRes.stillRunning⟩ := by
      intro s hs
      have := h (s + 1) (Nat.succ_lt_succ hs)
      have harith : t + (s + 1) = (t + 1) + s := by omega
      rwa [harith] at this
    have tail := ih (t + 1) fuel cg tw ev c hc hrest
    have harith2 : (t + 1) + n = t + (n + 1) := by omega
    calc devLoop env (fuel + (n + 1)) t cg tw ev
        = devLoop env (fuel + n) (t + 1) cg tw ev := step
      _ = devLoop env fuel ((t + 1) + n) cg tw ev := tail
      _ = devLoop env fuel (t + (n + 1)) cg tw ev := by rw [harith2]


lemma killCount_append (r : Role) (a b : List Event) :
    killCount r (a ++ b) = killCount r a + killCount r b := by
  unfold killCount
  rw [killsOf_append, List.countP_append]

lemma killCount_nil (r : Role) : killCount r [] = 0 := rfl

lemma killCount_kill_one (r x : Role) :
    killCount r [Event.kill x] = if x = r then 1 else 0 := by
  simp [killCount, killsOf, List.countP_cons, List.countP_nil]

lemma killCount_kill_two (r x y : Role) :
    killCount r [Event.kill x, Event.kill y] =
      (if x = r then 1 else 0) + (if y = r then 1 else 0) := by
  simp [killCount, killsOf, List.countP_cons, List.countP_nil]
  omega

/-- Exclusive-ownership invariant of the poll loop: the number of
terminate calls already in the trace, plus the number each guard can
still contribute (at most one — ownership is a single token), bounds
the total terminate calls to role `r` of every continuation. -/
lemma devLoop_killCount (env : Env) (r : Role) :
    ∀ (fuel t : Nat) (cg : ProcessGuard) (tw : Option ProcessGuard) (ev : List Event),
      killCount r ev + childCount r cg.child + optChildCount r tw ≤ 1 →
      killCount r (devLoop env fuel t cg tw ev).events ≤ 1 := by
  intro fuel
  induction fuel with
  | zero =>
    intro t cg tw ev h
    simpa [devLoop] using le_trans (by omega) h
  | succ n ih =>
    intro t cg tw ev h
    by_cases hrun : (env.obs t).runningFlag = false
    · rcases hcg : cg.child with _ | c <;> rcases tw with _ | g <;>
        first
        | (rcases hgc : g.child with _ | c2 <;>
            · simp only [childCount, optChildCount, hcg, hgc] at h
              simp [devLoop, hrun, hcg, hgc, optTake, ProcessGuard.take,
                ProcessGuard.dropEvents, optDropEvents, kill_process, killCount_append,
                killCount_nil, killCount_kill_one, killCount_kill_two]
              first
                | (split_ifs at h ⊢ <;> omega)
                | omega)
        | (simp only [childCount, optChildCount, hcg] at h
           simp [devLoop, hrun, hcg, optTake, ProcessGuard.take,
             ProcessGuard.dropEvents, optDropEvents, kill_process, killCount_append,
             killCount_nil, killCount_kill_one, killCount_kill_two]
           first
                | (split_ifs at h ⊢ <;> omega)
                | omega)
    · have hrun2 : (env.obs t).runningFlag = true := by
        cases hb : (env.obs t).runningFlag
        · exact absurd hb hrun
        · rfl
      rcases hcg : cg.child with _ | c
      · -- guard lost: bail, both guards drop (cargo guard drop is empty)
        rcases tw with _ | g
        · simp only [childCount, optChildCount, hcg] at h
          simp [devLoop, hrun2, hcg, optDropEvents, ProcessGuard.dropEvents,
            killCount_append, killCount_nil]
          omega
        · rcases hgc : g.child with _ | c2 <;>
            · simp only [childCount, optChildCount, hcg, hgc] at h
              simp [devLoop, hrun2, hcg, hgc, optDropEvents, ProcessGuard.dropEvents,
                killCount_append, killCount_nil, killCount_kill_one]
              first
                | (split_ifs at h ⊢ <;> omega)
                | omega
      · rcases hpoll : (env.obs t).poll with status | _ | _
        · -- primary exited: secondary taken and killed, cargo guard drops full
          rcases tw with _ | g
          · simp only [childCount, optChildCount, hcg] at h
            simp [devLoop, hrun2, hcg, hpoll, optTake, optDropEvents,
              ProcessGuard.dropEvents, kill_process, killCount_append, killCount_nil,
              killCount_kill_one, apply_ite DevResult.events, ite_self]
            first
                | (split_ifs at h ⊢ <;> omega)
                | omega
          · rcases hgc : g.child with _ | c2 <;>
              · simp only [childCount, optChildCount, hcg, hgc] at h
                simp [devLoop, hrun2, hcg, hgc, hpoll, optTake, ProcessGuard.take,
                  optDropEvents, ProcessGuard.dropEvents, kill_process, killCount_append,
                  killCount_nil, killCount_kill_one, killCount_kill_two,
                  apply_ite DevResult.events, ite_self]
                first
                | (split_ifs at h ⊢ <;> omega)
                | omega
        · -- still running: recurse
          have hstep : devLoop env (n + 1) t cg tw ev = devLoop env n (t + 1) cg tw ev := by
            simp [devLoop, hrun2, hcg, hpoll]
          rw [hstep]
          exact ih (t + 1) cg tw ev h
        · -- try_wait io error: both guards drop
          rcases tw with _ | g
          · simp only [childCount, optChildCount, hcg] at h
            simp [devLoop, hrun2, hcg, hpoll, optDropEvents, ProcessGuard.dropEvents,
              killCount_append, killCount_nil, killCount_kill_one]
            first
                | (split_ifs at h ⊢ <;> omega)
                | omega
          · rcases hgc : g.child with _ | c2 <;>
              · simp only [childCount, optChildCount, hcg, hgc] at h
                simp [devLoop, hrun2, hcg, hgc, hpoll, optDropEvents,
                  ProcessGuard.dropEvents, killCount_append, killCount_nil,
                  killCount_kill_one, killCount_kill_two]
                first
                | (split_ifs at h ⊢ <;> omega)
                | omega

/-- The loop `devLoop` reads the environment only through `obs` (the `waitStatus`
oracle is passed to `kill_process`, which discards it): two environments
with the same observation stream drive the loop identically. -/
lemma devLoop_env_irrel (e1 e2 : Env) (hobs : e1.obs = e2.obs) :
    ∀ (fuel t : Nat) (cg : ProcessGuard) (tw : Option ProcessGuard) (ev : List Event),
      devLoop e1 fuel t cg tw ev = devLoop e2 fuel t cg tw ev := by
  intro fuel
  induction fuel with
  | zero => intro t cg tw ev; rfl
  | succ n ih =>
    intro t cg tw ev
    by_cases hrun : (e2.obs t).runningFlag = false
    · simp [devLoop, hobs, hrun, kill_process]
    · have hrun2 : (e2.obs t).runningFlag = true := by
        cases hb : (e2.obs t).runningFlag
        · exact absurd hb hrun
        · rfl
      rcases hcg : cg.child with _ | c
      · simp [devLoop, hobs, hrun2, hcg]
      · rcases hpoll : (e2.obs t).poll with status | _ | _ <;>
          simp [devLoop, hobs, hrun2, hcg, hpoll, kill_process, ih]

lemma flagFold_eq : ∀ (l : List Bool) (init : Bool),
    l.foldl (fun f s => if s then handlerBody f else f) init = (init && !l.any id) := by
  intro l
  induction l with
  | nil => intro init; simp
  | cons a l ih =>
    intro init
    rw [List.foldl_cons, ih]
    cases a <;> cases init <;> simp [handlerBody]

/-- Closed form of the flag fold: the flag reads `true` exactly when no
signal has been delivered. -/
lemma flagAfter_eq (l : List Bool) : flagAfter l = !l.any id := by
  simpa [flagAfter, flagInitial] using flagFold_eq l true

/-- The flag at time `t` reads `false` exactly when some signal arrived
at or before `t`. -/
lemma flagAt_eq_false_iff (signals : Nat → Bool) (t : Nat) :
    flagAt signals t = false ↔ ∃ s, s ≤ t ∧ signals s = true := by
  rw [flagAt, flagAfter_eq]
  simp only [Bool.not_eq_false']
  rw [List.any_eq_true]
  constructor
  · rintro ⟨x, hx, hpx⟩
    rcases List.mem_map.mp hx with ⟨s, hs, rfl⟩
    exact ⟨s, Nat.lt_succ_iff.mp (List.mem_range.mp hs), hpx⟩
  · rintro ⟨s, hs, hsig⟩
    exact ⟨signals s, List.mem_map.mpr ⟨s, List.mem_range.mpr (Nat.lt_succ_of_le hs), rfl⟩, hsig⟩


/-! ## Run decompositions -/

lemma killsOf_kill_single (x : Role) : killsOf [Event.kill x] = [x] := rfl

lemma killsOf_nil_ev : killsOf [] = [] := rfl

lemma killsOf_kill_cons (x : Role) (l : List Event) :
    killsOf (Event.kill x :: l) = x :: killsOf l := by
  simp [killsOf]

lemma killsOf_spawn_cons (x : Role) (l : List Event) :
    killsOf (Event.spawn x :: l) = killsOf l := by
  simp [killsOf]

lemma killCount_spawn_cons (r x : Role) (l : List Event) :
    killCount r (Event.spawn x :: l) = killCount r l := by
  simp [killCount, killsOf]

lemma killCount_kill_cons (r x : Role) (l : List Event) :
    killCount r (Event.kill x :: l) = killCount r l + (if x = r then 1 else 0) := by
  simp [killCount, killsOf_kill_cons, List.countP_cons]

lemma killCount_installAttempt (r : Role) : killCount r [Event.installAttempt] = 0 := rfl

lemma killCount_warnNpx (r : Role) : killCount r [Event.warnNpx] = 0 := rfl

lemma killCount_spawn (r x : Role) : killCount r [Event.spawn x] = 0 := rfl

lemma killCount_handler (r : Role) : killCount r [Event.handlerInstalled] = 0 := rfl

/-- A session whose setup succeeds and whose first `t` poll iterations
are quiet reaches iteration `t` of the loop with fuel to spare. -/
lemma dev_run_to (env : Env) (fuel t : Nat)
    (h1 : env.cargoWatchInstalled = true ∨ env.cargoWatchInstalled2 = true ∨ env.installOk = true)
    (h2 : env.cargoSpawnOk = true) (h3 : env.ctrlcOk = true)
    (hq : ∀ s, s < t → env.obs s = ⟨true, PollRes.stillRunning⟩)
    (hfuel : t < fuel) :
    ∃ m : Nat, dev env fuel =
      devLoop env (m + 1) t (ProcessGuard.new ⟨Role.primary⟩ "cargo-watch") (twGuard0 env)
        (setupEvents env) := by
  rw [dev_reach_loop env fuel h1 h2 h3]
  have hsplit : (fuel - t) + t = fuel := Nat.sub_add_cancel (le_of_lt hfuel)
  have hskip := devLoop_skip env t 0 (fuel - t)
    (ProcessGuard.new ⟨Role.primary⟩ "cargo-watch") (twGuard0 env) (setupEvents env)
    ⟨Role.primary⟩ rfl (by intro s hs; simpa using hq s hs)
  have hpos : 0 < fuel - t := Nat.sub_pos_of_lt hfuel
  refine ⟨fuel - t - 1, ?_⟩
  have hm : (fuel - t - 1) + 1 = fuel - t := Nat.succ_pred_eq_of_pos hpos
  rw [hm]
  conv_lhs => rw [← hsplit]
  rw [hskip]
  simp

/-- Evaluation of the cancellation path (`dev.rs:148-162`) from a
loop state reached through `dev_run_to`: the primary is taken and
killed first, then the secondary (when spawned), and the session
returns `Ok`. -/
lemma devLoop_cancel_step (env : Env) (m t : Nat)
    (hcancel : (env.obs t).runningFlag = false) :
    devLoop env (m + 1) t (ProcessGuard.new ⟨Role.primary⟩ "cargo-watch") (twGuard0 env)
        (setupEvents env) =
      ⟨Outcome.ok,
        (setupEvents env ++ [Event.kill Role.primary]) ++
          (if twSpawned env = true then [Event.kill Role.secondary] else [])⟩ := by
  by_cases htw : twSpawned env = true <;>
    simp [devLoop, hcancel, twGuard0, htw, optTake, ProcessGuard.take, ProcessGuard.new,
      ProcessGuard.dropEvents, optDropEvents, kill_process]

/-- Evaluation of the primary-exit path (`dev.rs:166-192`) from a loop
state reached through `dev_run_to`: the secondary (when spawned) is
taken and killed, then the drop of the cargo guard kills the primary; the
outcome classifies `status.success()` with a fixed error value. -/
lemma devLoop_exit_step (env : Env) (m t st : Nat)
    (hobs : env.obs t = ⟨true, PollRes.exited st⟩) :
    devLoop env (m + 1) t (ProcessGuard.new ⟨Role.primary⟩ "cargo-watch") (twGuard0 env)
        (setupEvents env) =
      ⟨if st = 0 then Outcome.ok else Outcome.fatal DevErr.cargoWatchExited,
        (setupEvents env ++ (if twSpawned env = true then [Event.kill Role.secondary] else []))
          ++ [Event.kill Role.primary]⟩ := by
  by_cases htw : twSpawned env = true <;> by_cases hst : st = 0 <;>
    simp [devLoop, hobs, twGuard0, htw, hst, optTake, ProcessGuard.take, ProcessGuard.new,
      ProcessGuard.dropEvents, optDropEvents, kill_process]

lemma killsOf_preSpawnEvents (env : Env) : killsOf (preSpawnEvents env) = [] := by
  unfold preSpawnEvents
  split <;> split <;> split <;> rfl

lemma killCount_of_killsOf_nil (r : Role) (l : List Event) (h : killsOf l = []) :
    killCount r l = 0 := by
  simp [killCount, h]

/-- Primary spawn failure (`dev.rs:130`): the error propagates and the
drop of the tailwind guard kills the secondary if it was spawned. -/
lemma dev_spawnFail (env : Env) (fuel : Nat)
    (hA : env.cargoWatchInstalled = true ∨ env.cargoWatchInstalled2 = true ∨ env.installOk = true)
    (h2 : env.cargoSpawnOk = false) :
    dev env fuel = ⟨Outcome.fatal DevErr.spawnErr,
      preSpawnEvents env ++ (if twSpawned env = true then [Event.kill Role.secondary] else [])⟩ := by
  by_cases hc : env.cargoWatchInstalled = true
  · simp [dev, devBody, preSpawnEvents, twSpawned, twGuard0, hc, h2, optDropEvents,
      ProcessGuard.dropEvents, ProcessGuard.new, List.append_assoc]
    by_cases hP : (env.tailwindEnabled = true ∧ env.npxAvail2 = true) ∧ env.tailwindSpawnOk = true <;>
      simp [hP]
  · have hcf : env.cargoWatchInstalled = false := by
      cases hcb : env.cargoWatchInstalled
      · rfl
      · exact absurd hcb hc
    have hc2 : (env.cargoWatchInstalled2 || env.installOk) = true := by
      rcases hA with h | h | h
      · exact absurd h hc
      · simp [h]
      · simp [h]
    simp [dev, devBody, preSpawnEvents, twSpawned, twGuard0, hcf, hc2, h2, optDropEvents,
      ProcessGuard.dropEvents, ProcessGuard.new, List.append_assoc]
    by_cases hP : (env.tailwindEnabled = true ∧ env.npxAvail2 = true) ∧ env.tailwindSpawnOk = true <;>
      simp [hP]

/-- Signal-handler installation failure (`dev.rs:140`): the error
propagates; the cargo guard drops first (reverse declaration order),
killing the primary, then the drop of the tailwind guard kills the secondary
if it was spawned.  Both spawns happened before the installation was
attempted. -/
lemma dev_ctrlcFail (env : Env) (fuel : Nat)
    (hA : env.cargoWatchInstalled = true ∨ env.cargoWatchInstalled2 = true ∨ env.installOk = true)
    (h2 : env.cargoSpawnOk = true) (h3 : env.ctrlcOk = false) :
    dev env fuel = ⟨Outcome.fatal DevErr.ctrlcErr,
      ((preSpawnEvents env ++ [Event.spawn Role.primary]) ++ [Event.kill Role.primary]) ++
        (if twSpawned env = true then [Event.kill Role.secondary] else [])⟩ := by
  by_cases hc : env.cargoWatchInstalled = true
  · simp [dev, devBody, preSpawnEvents, twSpawned, twGuard0, hc, h2, h3, optDropEvents,
      ProcessGuard.dropEvents, ProcessGuard.new, List.append_assoc]
    try
      by_cases hP : (env.tailwindEnabled = true ∧ env.npxAvail2 = true) ∧ env.tailwindSpawnOk = true <;>
        simp [hP]
  · have hcf : env.cargoWatchInstalled = false := by
      cases hcb : env.cargoWatchInstalled
      · rfl
      · exact absurd hcb hc
    have hc2 : (env.cargoWatchInstalled2 || env.installOk) = true := by
      rcases hA with h | h | h
      · exact absurd h hc
      · simp [h]
      · simp [h]
    simp [dev, devBody, preSpawnEvents, twSpawned, twGuard0, hcf, hc2, h2, h3,
      optDropEvents, ProcessGuard.dropEvents, ProcessGuard.new, List.append_assoc]
    try
      by_cases hP : (env.tailwindEnabled = true ∧ env.npxAvail2 = true) ∧ env.tailwindSpawnOk = true <;>
        simp [hP]

/-- cargo-watch unavailable and installation fails (`dev.rs:85-88`,
`cargo.rs:41-54`): fatal before anything is spawned. -/
lemma dev_installFail (env : Env) (fuel : Nat)
    (h1 : env.cargoWatchInstalled = false) (h2 : env.cargoWatchInstalled2 = false)
    (h3 : env.installOk = false) :
    dev env fuel = ⟨Outcome.fatal DevErr.installFailed, [Event.installAttempt]⟩ := by
  simp [dev, h1, h2, h3]

/-! ## Claims -/

/-- Claim C1, counterexample.  The claim states that in a shutdown with
both watchers live the terminate call of the secondary is issued no
later than that of the primary, and that on the cancellation path the secondary is
extracted and killed first.  The code does the opposite
(`dev.rs:151-159`): in the session `envCancelBoth` (both watchers live,
ctrl-c observed at the first poll) the terminate calls are
`[primary, secondary]`, so the terminate call of the secondary comes
strictly later than that of the primary. -/
theorem claim_C1_counterexample :
    killsOf (dev envCancelBoth 1).events = [Role.primary, Role.secondary] ∧
    ¬ List.indexOf Role.secondary (killsOf (dev envCancelBoth 1).events) ≤
        List.indexOf Role.primary (killsOf (dev envCancelBoth 1).events) := by
  constructor
  · rfl
  · decide

/-- Claim C1, amended.  On the cancellation path the supervisor extracts
and kills the *primary* first, then the secondary (`dev.rs:152-159`):
in any shutdown via cancellation where both watchers are live, the
terminate sequence is exactly primary followed by secondary. -/
theorem claim_C1 (env : Env) (fuel t : Nat)
    (h1 : env.cargoWatchInstalled = true)
    (h2 : env.cargoSpawnOk = true) (h3 : env.ctrlcOk = true)
    (htw : twSpawned env = true)
    (hq : ∀ s, s < t → env.obs s = ⟨true, PollRes.stillRunning⟩)
    (hcancel : (env.obs t).runningFlag = false) (hfuel : t < fuel) :
    killsOf (dev env fuel).events = [Role.primary, Role.secondary] := by
  obtain ⟨m, hm⟩ := dev_run_to env fuel t (Or.inl h1) h2 h3 hq hfuel
  rw [hm, devLoop_cancel_step env m t hcancel]
  simp [killsOf_append, killsOf_setupEvents, killsOf_kill_single, killsOf_kill_cons, killsOf_nil_ev, htw]

/-- Claim C1, witness.  The amended ordering at the concrete session
`envCancelBoth`. -/
theorem claim_C1_witness :
    twSpawned envCancelBoth = true ∧
    (envCancelBoth.obs 0).runningFlag = false ∧
    killsOf (dev envCancelBoth 1).events = [Role.primary, Role.secondary] :=
  ⟨rfl, rfl,
    claim_C1 envCancelBoth 1 0 rfl rfl rfl rfl
      (fun s hs => absurd hs (Nat.not_lt_zero s)) rfl Nat.zero_lt_one⟩

/-- Claim C5.  When the cancellation flag is observed false (cancelled)
at some poll iteration of a session whose setup succeeded, the
supervisor kills the primary it holds (and the secondary, if one was
spawned) and returns `Ok`, which `main` maps to exit code 0: user
cancellation never produces a failure outcome (`dev.rs:148-162`,
`main.rs:43-48`). -/
theorem claim_C5 (env : Env) (fuel t : Nat)
    (h1 : env.cargoWatchInstalled = true)
    (h2 : env.cargoSpawnOk = true) (h3 : env.ctrlcOk = true)
    (hq : ∀ s, s < t → env.obs s = ⟨true, PollRes.stillRunning⟩)
    (hcancel : (env.obs t).runningFlag = false) (hfuel : t < fuel) :
    (dev env fuel).outcome = Outcome.ok ∧
    exitCode (dev env fuel).outcome = some 0 ∧
    Role.primary ∈ killsOf (dev env fuel).events ∧
    (twSpawned env = true → Role.secondary ∈ killsOf (dev env fuel).events) := by
  obtain ⟨m, hm⟩ := dev_run_to env fuel t (Or.inl h1) h2 h3 hq hfuel
  rw [hm, devLoop_cancel_step env m t hcancel]
  refine ⟨rfl, rfl, ?_, ?_⟩
  · simp [killsOf_append, killsOf_setupEvents, killsOf_kill_single, killsOf_kill_cons, killsOf_nil_ev]
  · intro htw
    simp [killsOf_append, killsOf_setupEvents, killsOf_kill_single, killsOf_kill_cons, killsOf_nil_ev, htw]

/-- Claim C5, witness.  Cancellation at the first poll of `envCancelBoth`
gives outcome `Ok` and exit code 0. -/
theorem claim_C5_witness :
    (envCancelBoth.obs 0).runningFlag = false ∧
    (dev envCancelBoth 1).outcome = Outcome.ok ∧
    exitCode (dev envCancelBoth 1).outcome = some 0 := by
  have h := claim_C5 envCancelBoth 1 0 rfl rfl rfl
    (fun s hs => absurd hs (Nat.not_lt_zero s)) rfl Nat.zero_lt_one
  exact ⟨rfl, h.1, h.2.1⟩

/-- Claim C6, counterexample.  The claim states that a non-zero primary
exit yields a `Failed` outcome carrying the exit code of the primary
(e.g. `Failed(137)`).  The failure value in the code is the fixed message
`"cargo watch exited with an error"` (`dev.rs:189`), which carries no
code: two sessions whose primaries exit 137 and 5 produce identical
outcomes, so the outcome cannot carry the exit code. -/
theorem claim_C6_counterexample :
    (dev envExit137 1).outcome = Outcome.fatal DevErr.cargoWatchExited ∧
    (dev envExit5 1).outcome = (dev envExit137 1).outcome := by
  constructor <;> rfl

/-- Claim C6, amended.  When the primary exits on its own, the supervisor
first kills the secondary if it is still running, then classifies the
exit status of the primary: success yields `Ok`, and a non-zero exit yields
the fixed fatal value `cargo watch exited with an error`, which does
not carry the exit code (`dev.rs:183-192`).  On this path the guard of
the primary also issues its (single) terminate on drop, after that of
the secondary. -/
theorem claim_C6 (env : Env) (fuel t st : Nat)
    (h1 : env.cargoWatchInstalled = true)
    (h2 : env.cargoSpawnOk = true) (h3 : env.ctrlcOk = true)
    (hq : ∀ s, s < t → env.obs s = ⟨true, PollRes.stillRunning⟩)
    (hexit : env.obs t = ⟨true, PollRes.exited st⟩) (hfuel : t < fuel) :
    (dev env fuel).outcome =
      (if st = 0 then Outcome.ok else Outcome.fatal DevErr.cargoWatchExited) ∧
    killsOf (dev env fuel).events =
      (if twSpawned env = true then [Role.secondary, Role.primary] else [Role.primary]) := by
  obtain ⟨m, hm⟩ := dev_run_to env fuel t (Or.inl h1) h2 h3 hq hfuel
  rw [hm, devLoop_exit_step env m t st hexit]
  constructor
  · rfl
  · by_cases htw : twSpawned env = true <;>
      simp [killsOf_append, killsOf_setupEvents, killsOf_kill_single, killsOf_kill_cons, killsOf_nil_ev, htw]

/-- Claim C6, witness.  Exit status 137 with a live secondary: secondary
killed first, then the guard drop of the primary; fixed fatal outcome. -/
theorem claim_C6_witness :
    envExit137.obs 0 = ⟨true, PollRes.exited 137⟩ ∧
    (dev envExit137 1).outcome = Outcome.fatal DevErr.cargoWatchExited ∧
    killsOf (dev envExit137 1).events = [Role.secondary, Role.primary] := by
  have h := claim_C6 envExit137 1 0 137 rfl rfl rfl
    (fun s hs => absurd hs (Nat.not_lt_zero s)) rfl Nat.zero_lt_one
  refine ⟨rfl, ?_, ?_⟩
  · simpa using h.1
  · simpa [twSpawned, envExit137, envBase] using h.2

/-- Claim C7, counterexample.  The claim states that a secondary spawn
failure emits a warning.  The failure arm is `Err(_) => None`
(`dev.rs:111`) and prints nothing: in the session `envTwSpawnFail`
(tailwind enabled, npx available, spawn fails) the entire trace
contains no warning event — `warnNpx`, the only warning `dev()` ever
prints (`dev.rs:94-100`), is absent. -/
theorem claim_C7_counterexample :
    envTwSpawnFail.tailwindEnabled = true ∧
    envTwSpawnFail.npxAvail2 = true ∧
    envTwSpawnFail.tailwindSpawnOk = false ∧
    (dev envTwSpawnFail 1).outcome = Outcome.ok ∧
    Event.warnNpx ∉ (dev envTwSpawnFail 1).events := by
  refine ⟨rfl, rfl, rfl, rfl, ?_⟩
  decide

/-- Claim C7, amended.  A secondary spawn failure is non-fatal and
silent: no warning is emitted for it (the only warning is the earlier
npx-unavailability one, absent when npx is found), the session proceeds
with only the primary, and a clean primary exit still yields `Ok`
(`dev.rs:105-115,183-192`). -/
theorem claim_C7 (env : Env) (fuel t : Nat)
    (h1 : env.cargoWatchInstalled = true)
    (h2 : env.cargoSpawnOk = true) (h3 : env.ctrlcOk = true)
    (htwf : env.tailwindSpawnOk = false) (hnpx : env.npxAvail1 = true)
    (hq : ∀ s, s < t → env.obs s = ⟨true, PollRes.stillRunning⟩)
    (hexit : env.obs t = ⟨true, PollRes.exited 0⟩) (hfuel : t < fuel) :
    (dev env fuel).outcome = Outcome.ok ∧
    Event.warnNpx ∉ (dev env fuel).events ∧
    killsOf (dev env fuel).events = [Role.primary] := by
  obtain ⟨m, hm⟩ := dev_run_to env fuel t (Or.inl h1) h2 h3 hq hfuel
  have htw : twSpawned env = false := by simp [twSpawned, htwf]
  rw [hm, devLoop_exit_step env m t 0 hexit]
  refine ⟨rfl, ?_, ?_⟩
  · simp [setupEvents, h1, hnpx, htw]
  · simp [killsOf_append, killsOf_setupEvents, killsOf_kill_single, killsOf_kill_cons, killsOf_nil_ev, htw]

/-- Claim C7, witness.  The concrete spawn-failure session ends `Ok` with
only the single terminate of the primary. -/
theorem claim_C7_witness :
    envTwSpawnFail.tailwindSpawnOk = false ∧
    (dev envTwSpawnFail 1).outcome = Outcome.ok ∧
    killsOf (dev envTwSpawnFail 1).events = [Role.primary] := by
  have h := claim_C7 envTwSpawnFail 1 0 rfl rfl rfl rfl rfl
    (fun s hs => absurd hs (Nat.not_lt_zero s)) rfl Nat.zero_lt_one
  exact ⟨rfl, h.1, h.2.2⟩

/-- Claim C3, counterexample.  The claim states that when the primary
spawn fails, zero terminate calls are issued before the fatal return.
But the secondary is spawned *before* the primary (`dev.rs:105-130`),
so when the primary spawn fails with a live secondary, the tailwind
guard drop kills it: session `envSpawnFail` issues one terminate (to
the secondary). -/
theorem claim_C3_counterexample :
    (dev envSpawnFail 1).outcome = Outcome.fatal DevErr.spawnErr ∧
    killsOf (dev envSpawnFail 1).events = [Role.secondary] ∧
    killsOf (dev envSpawnFail 1).events ≠ [] := by
  refine ⟨rfl, rfl, ?_⟩
  decide

/-- Claim C3, amended.  If the primary spawn fails, the supervisor
returns the fatal error without ever issuing a terminate to a primary
handle (none exists); the only terminate possibly issued is the
single drop-kill by the secondary guard, present exactly when a secondary
had been spawned. -/
theorem claim_C3 (env : Env) (fuel : Nat)
    (h1 : env.cargoWatchInstalled = true) (h2 : env.cargoSpawnOk = false) :
    (dev env fuel).outcome = Outcome.fatal DevErr.spawnErr ∧
    Role.primary ∉ killsOf (dev env fuel).events ∧
    killsOf (dev env fuel).events =
      (if twSpawned env = true then [Role.secondary] else []) := by
  rw [dev_spawnFail env fuel (Or.inl h1) h2]
  refine ⟨rfl, ?_, ?_⟩ <;>
    by_cases htw : twSpawned env = true <;>
      simp [killsOf_append, killsOf_preSpawnEvents, killsOf_kill_single, killsOf_nil_ev, htw]

/-- Claim C3, witness.  The amendment at the concrete session
`envSpawnFail`. -/
theorem claim_C3_witness :
    envSpawnFail.cargoSpawnOk = false ∧
    (dev envSpawnFail 1).outcome = Outcome.fatal DevErr.spawnErr ∧
    Role.primary ∉ killsOf (dev envSpawnFail 1).events := by
  have h := claim_C3 envSpawnFail 1 rfl rfl
  exact ⟨rfl, h.1, h.2.1⟩

/-- Claim C4, counterexample.  The claim states the supervisor does not
spawn any child watcher before the cancellation handler has been
installed.  The code installs the handler at `dev.rs:138-140`, *after*
spawning both watchers (`dev.rs:105-132`): in session `envCtrlcFail`
both spawn events occur although the handler is never installed. -/
theorem claim_C4_counterexample :
    Event.spawn Role.primary ∈ (dev envCtrlcFail 1).events ∧
    Event.spawn Role.secondary ∈ (dev envCtrlcFail 1).events ∧
    Event.handlerInstalled ∉ (dev envCtrlcFail 1).events := by
  refine ⟨?_, ?_, ?_⟩ <;> decide

/-- Claim C4, amended.  Failure to install the cancellation handler is
fatal (the error propagates and the guard drops kill both spawned
watchers, primary first by reverse declaration order), but the handler
is installed only *after* both watchers have been spawned, so the
spawns precede any successful installation. -/
theorem claim_C4 (env : Env) (fuel : Nat)
    (h1 : env.cargoWatchInstalled = true) (h2 : env.cargoSpawnOk = true)
    (h3 : env.ctrlcOk = false) :
    (dev env fuel).outcome = Outcome.fatal DevErr.ctrlcErr ∧
    Event.handlerInstalled ∉ (dev env fuel).events ∧
    Event.spawn Role.primary ∈ (dev env fuel).events ∧
    killsOf (dev env fuel).events =
      Role.primary :: (if twSpawned env = true then [Role.secondary] else []) := by
  rw [dev_ctrlcFail env fuel (Or.inl h1) h2 h3]
  refine ⟨rfl, ?_, ?_, ?_⟩
  · by_cases htw : twSpawned env = true <;>
      by_cases hw : (env.tailwindEnabled && !env.npxAvail1) = true <;>
        simp [preSpawnEvents, twSpawned, h1, htw, hw] <;>
          simp_all [twSpawned]
  · simp
  · by_cases htw : twSpawned env = true <;>
      simp [killsOf_append, killsOf_preSpawnEvents, killsOf_kill_single, killsOf_kill_cons,
        killsOf_spawn_cons, killsOf_nil_ev, htw]

/-- Claim C4, witness.  The amendment at the concrete session
`envCtrlcFail`. -/
theorem claim_C4_witness :
    envCtrlcFail.ctrlcOk = false ∧
    (dev envCtrlcFail 1).outcome = Outcome.fatal DevErr.ctrlcErr ∧
    Event.handlerInstalled ∉ (dev envCtrlcFail 1).events := by
  have h := claim_C4 envCtrlcFail 1 rfl rfl rfl
  exact ⟨rfl, h.1, h.2.1⟩

/-- Claim C2.  The single-kill invariant.  `ProcessGuard::take` leaves
the guard empty; the drop of an empty guard issues nothing; the drop of
a held guard issues exactly one terminate+wait; and across every session
and every cleanup path, the handle of each role receives at most one terminate
call (`dev.rs:29-42,146-192`). -/
theorem claim_C2 :
    (∀ g : ProcessGuard, ((ProcessGuard.take g).2).child = none) ∧
    (∀ name : String, ProcessGuard.dropEvents { child := none, name := name } = []) ∧
    (∀ (c : Child) (name : String),
        ProcessGuard.dropEvents { child := some c, name := name } = [Event.kill c.role]) ∧
    (∀ (env : Env) (fuel : Nat) (r : Role), killCount r (dev env fuel).events ≤ 1) := by
  refine ⟨fun g => rfl, fun _ => rfl, fun _ _ => rfl, ?_⟩
  intro env fuel r
  by_cases hA : env.cargoWatchInstalled = true ∨ env.cargoWatchInstalled2 = true ∨
      env.installOk = true
  · by_cases h2 : env.cargoSpawnOk = true
    · by_cases h3 : env.ctrlcOk = true
      · rw [dev_reach_loop env fuel hA h2 h3]
        apply devLoop_killCount
        have h0 : killCount r (setupEvents env) = 0 :=
          killCount_of_killsOf_nil r _ (killsOf_setupEvents env)
        rw [h0]
        cases r <;> by_cases htw : twSpawned env = true <;>
          simp [childCount, optChildCount, twGuard0, htw, ProcessGuard.new]
      · have h3f : env.ctrlcOk = false := by
          cases hb : env.ctrlcOk
          · rfl
          · exact absurd hb h3
        rw [dev_ctrlcFail env fuel hA h2 h3f]
        have h0 : killCount r (preSpawnEvents env) = 0 :=
          killCount_of_killsOf_nil r _ (killsOf_preSpawnEvents env)
        by_cases htw : twSpawned env = true <;>
          · simp [killCount_append, killCount_nil, killCount_spawn, killCount_kill_one,
              killCount_spawn_cons, killCount_kill_cons, h0, htw]
            try cases r <;> simp
    · have h2f : env.cargoSpawnOk = false := by
        cases hb : env.cargoSpawnOk
        · rfl
        · exact absurd hb h2
      rw [dev_spawnFail env fuel hA h2f]
      have h0 : killCount r (preSpawnEvents env) = 0 :=
        killCount_of_killsOf_nil r _ (killsOf_preSpawnEvents env)
      by_cases htw : twSpawned env = true <;>
        · simp [killCount_append, killCount_nil, killCount_kill_one, killCount_spawn_cons,
            killCount_kill_cons, h0, htw]
          try cases r <;> simp
  · have h1f : env.cargoWatchInstalled = false := by
      cases hb : env.cargoWatchInstalled
      · rfl
      · exact absurd (Or.inl hb) hA
    have h2f : env.cargoWatchInstalled2 = false := by
      cases hb : env.cargoWatchInstalled2
      · rfl
      · exact absurd (Or.inr (Or.inl hb)) hA
    have h3f : env.installOk = false := by
      cases hb : env.installOk
      · rfl
      · exact absurd (Or.inr (Or.inr hb)) hA
    rw [dev_installFail env fuel h1f h2f h3f]
    simp [killCount_installAttempt]

/-- Claim C8.  Outcome determinism and secondary-status independence: the
embedded `dev` is a function of the environment, and two environments
that agree on everything the supervisor reads — differing only in the
OS exit status of the *secondary* watcher — produce identical results
(outcome and full event trace).  The status of the secondary enters only
through `wait()` calls whose results the source discards
(`dev.rs:36-41,71-75`). -/
theorem claim_C8 (e1 e2 : Env) (fuel : Nat)
    (hA : e1.cargoWatchInstalled = e2.cargoWatchInstalled)
    (hB : e1.cargoWatchInstalled2 = e2.cargoWatchInstalled2)
    (hC : e1.installOk = e2.installOk)
    (hD : e1.tailwindEnabled = e2.tailwindEnabled)
    (hE : e1.npxAvail1 = e2.npxAvail1)
    (hF : e1.npxAvail2 = e2.npxAvail2)
    (hG : e1.tailwindSpawnOk = e2.tailwindSpawnOk)
    (hH : e1.cargoSpawnOk = e2.cargoSpawnOk)
    (hI : e1.ctrlcOk = e2.ctrlcOk)
    (hJ : e1.waitStatus Role.primary = e2.waitStatus Role.primary)
    (hK : e1.obs = e2.obs) :
    dev e1 fuel = dev e2 fuel := by
  have hloop := devLoop_env_irrel e1 e2 hK
  simp only [dev, devBody, hA, hB, hC, hD, hE, hF, hG, hH, hI, hloop]

/-- Claim C8, witness.  Two concrete cancellation sessions whose
secondary exit statuses differ (0 versus 9) produce identical
results. -/
theorem claim_C8_witness :
    envCancelSec0.waitStatus Role.secondary ≠ envCancelSec9.waitStatus Role.secondary ∧
    dev envCancelSec0 2 = dev envCancelSec9 2 := by
  constructor
  · decide
  · exact claim_C8 envCancelSec0 envCancelSec9 2 rfl rfl rfl rfl rfl rfl rfl rfl rfl rfl rfl


/-- Claim C9.  Cancellation-flag monotonicity (`dev.rs:135-140`): the
flag starts `true` (not cancelled); the entire body of the handler is one
latching store of `false`, and the flag is a pure fold of handler
invocations over the signal history (no other writer exists in the
model, mirroring the source where no other code writes `running`);
while no signal has arrived the flag reads `true`; and once it reads
`false` it reads `false` at every later time in the session. -/
theorem claim_C9 :
    flagInitial = true ∧
    (∀ b : Bool, handlerBody b = false) ∧
    (∀ (signals : Nat → Bool) (t : Nat),
        (∀ s, s ≤ t → signals s = false) → flagAt signals t = true) ∧
    (∀ (signals : Nat → Bool) (t u : Nat), t ≤ u →
        flagAt signals t = false → flagAt signals u = false) := by
  refine ⟨rfl, fun b => rfl, ?_, ?_⟩
  · intro signals t hnone
    cases hb : flagAt signals t
    · obtain ⟨s, hs, hsig⟩ := (flagAt_eq_false_iff signals t).mp hb
      rw [hnone s hs] at hsig
      exact absurd hsig (by simp)
    · rfl
  · intro signals t u htu hf
    obtain ⟨s, hs, hsig⟩ := (flagAt_eq_false_iff signals t).mp hf
    exact (flagAt_eq_false_iff signals u).mpr ⟨s, le_trans hs htu, hsig⟩

/-- Claim C9, witness.  With a single signal at time 1: the flag reads
`true` at time 0, `false` at time 1, and still `false` at time 3. -/
theorem claim_C9_witness :
    flagAt sigAt1 0 = true ∧ flagAt sigAt1 1 = false ∧ flagAt sigAt1 3 = false :=
  ⟨claim_C9.2.2.1 sigAt1 0
      (fun s hs => by
        have h0 : s = 0 := Nat.le_zero.mp hs
        rw [h0]
        rfl),
    rfl,
    claim_C9.2.2.2 sigAt1 1 3 (by omega) rfl⟩

/-- Claim C10.  Every failure of the config probe — `Cargo.toml` missing,
unreadable, or unparseable, or the `package.metadata.tailwind` chain
absent — makes `is_tailwind_enabled` return `false`
(`tailwind.rs:46-74`), and in `dev` a session whose secondary spawn
fails (the remaining path on which a config error can surface,
`dev.rs:54-56,105-115`) is indistinguishable from one with tailwind
disabled: no configuration error is ever fatal to the dev command. -/
theorem claim_C10 :
    is_tailwind_enabled CargoTomlProbe.missing = false ∧
    is_tailwind_enabled CargoTomlProbe.readErr = false ∧
    is_tailwind_enabled CargoTomlProbe.parseErr = false ∧
    (∀ c : CargoToml, (c.package.bind Package.metadata).bind Metadata.tailwind = none →
        is_tailwind_enabled (CargoTomlProbe.parsed c) = false) ∧
    (∀ (env : Env) (fuel : Nat),
        dev { env with tailwindEnabled := true, npxAvail1 := true, tailwindSpawnOk := false }
            fuel =
          dev { env with tailwindEnabled := false, npxAvail1 := true } fuel) := by
  refine ⟨rfl, rfl, rfl, ?_, ?_⟩
  · intro c hc
    simp only [is_tailwind_enabled, read_tailwind_config, hc]
    rfl
  · intro env fuel
    have hloop := devLoop_env_irrel
      { env with tailwindEnabled := true, npxAvail1 := true, tailwindSpawnOk := false }
      { env with tailwindEnabled := false, npxAvail1 := true } rfl
    simp [dev, devBody, hloop]

/-- Claim C10, witness.  A parsed `Cargo.toml` with no `package` section
yields `false`. -/
theorem claim_C10_witness :
    ((CargoToml.mk none).package.bind Package.metadata).bind Metadata.tailwind = none ∧
    is_tailwind_enabled (CargoTomlProbe.parsed (CargoToml.mk none)) = false :=
  ⟨rfl, claim_C10.2.2.2.1 (CargoToml.mk none) rfl⟩

end Unc
